import Mathlib

/-!
Verification of the wikipedia-mcp-server content-extraction and
link-classification engine (src/server.py) against its specification.

The parsed HTML document is shallowly embedded as a node tree.  A node is
either the end of a sibling chain, a text node, or an element carrying a
tag name, an ordered attribute list, its first child and its next sibling;
a `Node` value therefore denotes a forest (the ordered list of children of
the spec data model is encoded as the first-child / next-sibling chain).
The three tool operations -- fetch_wikipedia_page, fetch_next_wikipedia_page
and extract_all_wikipedia_links -- are embedded as pure functions from a
page title and a fetch outcome (the httpx fetch collaborator is modelled by
the FetchResult type) to their result types.  BeautifulSoup primitives used
by the source (find, find_all, select, decompose, unwrap, get_text, str
serialization) and the Python string methods are modelled as recursive
functions over the node tree and over character lists, matching the
in-place mutation of the source by value passing.
-/

/-- A parsed HTML forest: end of chain, text node with next sibling, or
element with tag name, attribute list, first child and next sibling. -/
inductive Node where
  | nil : Node
  | text : String → Node → Node
  | elem : String → List (String × String) → Node → Node → Node
deriving DecidableEq

/-- Tag name of a node (empty for non-elements). -/
def tagOf : Node → String
  | .elem t _ _ _ => t
  | _ => ""

/-- Attribute list of a node. -/
def attrsOf : Node → List (String × String)
  | .elem _ a _ _ => a
  | _ => []

/-- First child (the child forest) of a node. -/
def childOf : Node → Node
  | .elem _ _ ch _ => ch
  | _ => .nil

/-- Lookup of an attribute value (first occurrence wins, as in the parsed
attribute dictionary). -/
def getAttr (attrs : List (String × String)) (name : String) : Option String :=
  (attrs.find? (fun pr => pr.1 == name)).map (fun pr => pr.2)

/-- Setting an attribute value, as in the source `a_tag[..] = value`:
replace the existing entry, or append a fresh one. -/
def setAttr (attrs : List (String × String)) (name v : String) : List (String × String) :=
  if (attrs.find? (fun pr => pr.1 == name)).isSome then
    attrs.map (fun pr => if pr.1 == name then (pr.1, v) else pr)
  else
    attrs ++ [(name, v)]

/-- Splitting a character list on a separator character (Python
`s.split(c)`). -/
def splitOnCharL (c : Char) : List Char → List (List Char)
  | [] => [[]]
  | x :: xs =>
    if x = c then [] :: splitOnCharL c xs
    else
      match splitOnCharL c xs with
      | [] => [[x]]
      | p :: ps => (x :: p) :: ps

/-- The multi-valued class attribute, as returned by `tag.get('class', [])`:
the class attribute value split on whitespace by the parser. -/
def classList (attrs : List (String × String)) : List String :=
  ((splitOnCharL ' ' ((getAttr attrs "class").getD "").data).map String.mk).filter
    (fun c => c ≠ "")

/-- Python `s.startswith(p)`: prefix test on the character sequence. -/
def startswith (s p : String) : Bool :=
  p.data.isPrefixOf s.data

/-- Python `c in s` for a single character. -/
def containsChar (s : String) (c : Char) : Bool :=
  s.data.contains c

/-- Python `p in s` for a substring: some suffix of `s` starts with `p`. -/
def isSubstrOf (p s : String) : Bool :=
  s.data.tails.any (fun t => p.data.isPrefixOf t)

/-- Python `s.split(c)[0]`: the characters before the first occurrence of
the separator character. -/
def beforeChar (c : Char) (s : String) : String :=
  String.mk (s.data.takeWhile (fun x => x ≠ c))

/-- Everything after the first occurrence of a separator sequence (empty
when the separator is absent). -/
def afterFirstSeq (sep : List Char) : List Char → List Char
  | [] => []
  | c :: rest =>
    if sep.isPrefixOf (c :: rest) then (c :: rest).drop sep.length
    else afterFirstSeq sep rest

/-- The characters before the first occurrence of a separator sequence. -/
def takeUntilSeq (sep : List Char) : List Char → List Char
  | [] => []
  | c :: rest =>
    if sep.isPrefixOf (c :: rest) then []
    else c :: takeUntilSeq sep rest

/-- Python `s.split(sep, 1)[1]`: everything after the first occurrence of
the separator (empty when the separator is absent, where the source would
raise; only evaluated under a startswith guard). -/
def afterFirst (sep s : String) : String :=
  String.mk (afterFirstSeq sep.data s.data)

/-- Python `s.split(sep)[1]`: the piece between the first and the second
occurrence of the separator (empty when the separator is absent, where the
source would raise; only evaluated under a startswith guard). -/
def secondPiece (sep s : String) : String :=
  String.mk (takeUntilSeq sep.data (afterFirstSeq sep.data s.data))

/-- Python `s.strip()`: whitespace removed from both ends. -/
def pyStrip (s : String) : String :=
  String.mk (((s.data.dropWhile Char.isWhitespace).reverse.dropWhile Char.isWhitespace).reverse)

/-- Lower-casing of one character (ASCII fragment of Python `str.lower`). -/
def charLower (c : Char) : Char :=
  if 'A' ≤ c ∧ c ≤ 'Z' then Char.ofNat (c.toNat + 32) else c

/-- Python `s.lower()` (ASCII fragment). -/
def pyLower (s : String) : String :=
  String.mk (s.data.map charLower)

/-- Python `s.replace(a, b)` for single characters. -/
def replaceChar (a b : Char) (s : String) : String :=
  String.mk (s.data.map (fun c => if c = a then b else c))

/-- Python `sep.join(parts)` (string-joining collaborator). -/
def joinSep (sep : String) : List String → String
  | [] => ""
  | [s] => s
  | s :: rest => s ++ sep ++ joinSep sep rest

/-- Numeric value of a hexadecimal digit. -/
def hexVal (c : Char) : Option Nat :=
  if '0' ≤ c ∧ c ≤ '9' then some (c.toNat - '0'.toNat)
  else if 'a' ≤ c ∧ c ≤ 'f' then some (c.toNat - 'a'.toNat + 10)
  else if 'A' ≤ c ∧ c ≤ 'F' then some (c.toNat - 'A'.toNat + 10)
  else none

/-- Percent-decoding on a character sequence: a percent sign followed by
two hex digits decodes to the corresponding character; an invalid escape is
kept verbatim. -/
def unquoteChars : List Char → List Char
  | '%' :: a :: b :: rest =>
    match hexVal a, hexVal b with
    | some x, some y => Char.ofNat (16 * x + y) :: unquoteChars rest
    | _, _ => '%' :: unquoteChars (a :: b :: rest)
  | c :: rest => c :: unquoteChars rest
  | [] => []

/-- Model of the `urllib.parse.unquote` collaborator (ASCII fragment:
multi-byte UTF-8 escape sequences are decoded bytewise). -/
def unquote (s : String) : String :=
  String.mk (unquoteChars s.data)

/-- A single-quote character, used inside the error-message literals of the
source. -/
def quoteChar : String :=
  String.mk [Char.ofNat 39]

/-- The site base URL (`base_url` in every operation). -/
def base_url : String :=
  "https://en.wikipedia.org"

/-- Title-to-URL formatting shared by the three operations:
`base_url + "/wiki/" + page_title.replace(" ", "_")`. -/
def pageUrl (page_title : String) : String :=
  base_url ++ "/wiki/" ++ replaceChar ' ' '_' page_title

/-- All text-node strings of a forest, in document order. -/
def textsOf : Node → List String
  | .nil => []
  | .text s sib => s :: textsOf sib
  | .elem _ _ ch sib => textsOf ch ++ textsOf sib

/-- The stripped non-empty text segments of a node, as yielded by
BeautifulSoup `get_text(..., strip=True)`. -/
def strippedSegments (n : Node) : List String :=
  ((textsOf n).map pyStrip).filter (fun s => s ≠ "")

/-- BeautifulSoup `n.get_text(separator=sep, strip=True)`. -/
def get_text (n : Node) (sep : String) : String :=
  joinSep sep (strippedSegments n)

/-- BeautifulSoup `find`: first element of the forest, in document
pre-order, satisfying the predicate; the match is returned detached from
its siblings. -/
def findFirst (p : Node → Bool) : Node → Option Node
  | .nil => none
  | .text _ sib => findFirst p sib
  | .elem t a ch sib =>
    if p (.elem t a ch .nil) then some (.elem t a ch .nil)
    else
      match findFirst p ch with
      | some r => some r
      | none => findFirst p sib

/-- Decomposing every element of a forest that matches a predicate, as in
`for el in x.find_all(..): el.decompose()`: a matching element is removed
with its whole subtree; the search continues inside kept elements.  The
predicate sees the element detached, with its original subtree. -/
def removeMatching (p : Node → Bool) : Node → Node
  | .nil => .nil
  | .text s sib => .text s (removeMatching p sib)
  | .elem t a ch sib =>
    if p (.elem t a ch .nil) then removeMatching p sib
    else .elem t a (removeMatching p ch) (removeMatching p sib)

/-- Decomposition run over the descendants of one detached node
(`x.find_all` / `x.select` never match `x` itself). -/
def decomposeIn (p : Node → Bool) : Node → Node
  | .nil => .nil
  | .text s sib => .text s sib
  | .elem t a ch sib => .elem t a (removeMatching p ch) sib

/-- The href values of all anchors of a forest in document pre-order, as
collected by `find_all('a', href=True)`. -/
def anchorHrefs : Node → List String
  | .nil => []
  | .text _ sib => anchorHrefs sib
  | .elem t a ch sib =>
    (if t == "a" && (getAttr a "href").isSome then [(getAttr a "href").getD ""] else [])
      ++ anchorHrefs ch ++ anchorHrefs sib

/-- Serialization of an attribute list, as in `str(tag)`. -/
def renderAttrs : List (String × String) → String
  | [] => ""
  | (k, v) :: rest => " " ++ k ++ "=\"" ++ v ++ "\"" ++ renderAttrs rest

/-- Serialization of a forest, as in `str(tag)` (entity escaping of text is
not modelled; the table heuristic only probes for class-marker substrings). -/
def renderForest : Node → String
  | .nil => ""
  | .text s sib => s ++ renderForest sib
  | .elem t a ch sib =>
    "<" ++ t ++ renderAttrs a ++ ">" ++ renderForest ch ++ "</" ++ t ++ ">" ++ renderForest sib

/-- Serialization of one detached node, Python `str(tag)`. -/
def render (n : Node) : String :=
  renderForest n

/-- Concatenation of two sibling chains, used when an anchor is unwrapped
and its children are spliced into its place. -/
def appendForest : Node → Node → Node
  | .nil, m => m
  | .text s sib, m => .text s (appendForest sib m)
  | .elem t a ch sib, m => .elem t a ch (appendForest sib m)

/-- Outcome of the fetch collaborator for one request: the parsed document
on success, an HTTP-status failure (`httpx.HTTPStatusError`, carrying the
status code and reason phrase) or a transport failure
(`httpx.RequestError`). -/
inductive FetchResult where
  | success : Node → FetchResult
  | httpStatusError : Nat → String → FetchResult
  | requestError : String → FetchResult

/-- Error message for an HTTP-status failure, as formatted by all three
operations. -/
def errMsgHTTP (page_title : String) (status : Nat) (reason : String) : String :=
  "Error fetching page " ++ quoteChar ++ page_title ++ quoteChar ++ ": HTTP "
    ++ toString status ++ " - " ++ reason

/-- Error message for a transport failure, as formatted by all three
operations. -/
def errMsgReq (page_title : String) (msg : String) : String :=
  "Error fetching page " ++ quoteChar ++ page_title ++ quoteChar ++ ": " ++ msg

/-- Predicate for `soup.find('div', id='mw-content-text')`. -/
def isContentDiv (n : Node) : Bool :=
  tagOf n == "div" && getAttr (attrsOf n) "id" == some "mw-content-text"

/-- Predicate for `find('div', class_='mw-parser-output')`: a div whose
class list contains the class. -/
def isParserOutputDiv (n : Node) : Bool :=
  tagOf n == "div" && (classList (attrsOf n)).contains "mw-parser-output"

/-- The list passed to `find_all` by the noise-removal pass of
fetch_wikipedia_page.  BeautifulSoup interprets every entry of such a list
as a tag name. -/
def removalNames : List String :=
  ["table", "div.navbox", "div.thumb", "div.hatnote", "div.reflist", "div.catlinks"]

/-- Matching of `find_all(removalNames)`: the tag name is one of the listed
names. -/
def fwpRemovalPred (n : Node) : Bool :=
  removalNames.contains (tagOf n)

/-- The separator the source passes to `get_text`: the two-character
literal backslash-n (the Python source writes the escaped form inside a
normal string literal), not a newline. -/
def bslashN : String := "\\n"

/-- The prefix tuple fetch_wikipedia_page filters out (note: no Talk:). -/
def fwpReservedStarts : List String :=
  ["/wiki/Main_Page", "/wiki/Special:", "/wiki/Help:", "/wiki/Category:",
   "/wiki/Portal:", "/wiki/Template:", "/wiki/Wikipedia:"]

/-- Keep condition of the fetch_wikipedia_page link loop: starts with
/wiki/, no colon anywhere in the href, and none of the reserved prefixes. -/
def fwpKeepHref (href : String) : Bool :=
  startswith href "/wiki/" && !(containsChar href ':')
    && !(fwpReservedStarts.any (fun p => startswith href p))

/-- The wikipedia_links value assembled from a (mutated) parser-output div:
kept hrefs prefixed with the base URL, deduplicated by `list(set(..))`
(modelled as one enumeration of the distinct elements). -/
def fwpLinks (pd : Node) : List String :=
  (((anchorHrefs (childOf pd)).filter fwpKeepHref).map (fun h => base_url ++ h)).dedup

/-- Result dictionary of fetch_wikipedia_page: the success shape has no
error entry (`error = none`); every failure shape carries one. -/
structure FetchPageResult where
  error : Option String
  main_text : String
  wikipedia_links : List String
deriving DecidableEq

/-- The fetch_wikipedia_page operation (src/server.py lines 12-86), over an
already-performed fetch.  The source finds mw-content-text, then
mw-parser-output inside it, decomposes the removal list in place, takes the
text with the (escaped) separator, then re-finds the same mutated div and
collects its deduplicated internal links; either missing div yields a
fallback main_text in a success-shaped result. -/
def fetch_wikipedia_page (page_title : String) (res : FetchResult) : FetchPageResult :=
  match res with
  | .success doc =>
    match findFirst isContentDiv doc with
    | none =>
      { error := none, main_text := "Could not find mw-content-text div.",
        wikipedia_links := [] }
    | some c =>
      match findFirst isParserOutputDiv (childOf c) with
      | none =>
        { error := none, main_text := "Could not find mw-parser-output div.",
          wikipedia_links := [] }
      | some pd =>
        let cleaned := decomposeIn fwpRemovalPred pd
        { error := none,
          main_text := get_text cleaned bslashN,
          wikipedia_links := fwpLinks cleaned }
  | .httpStatusError st reason =>
    { error := some (errMsgHTTP page_title st reason), main_text := "",
      wikipedia_links := [] }
  | .requestError m =>
    { error := some (errMsgReq page_title m), main_text := "",
      wikipedia_links := [] }

/-- Classification kinds of the link pipeline (spec section 3). -/
inductive Kind where
  | internalArticle : Kind
  | internalFile : Kind
  | fragmentOnly : Kind
  | externalOrOther : Kind
deriving DecidableEq

/-- The page-title part of an internal href, as computed by
fetch_next_wikipedia_page:
`href.split('/wiki/')[1].split('#')[0].split('?')[0]`. -/
def titleSegment (href : String) : String :=
  beforeChar '?' (beforeChar '#' (secondPiece "/wiki/" href))

/-- The prefix tuple fetch_next_wikipedia_page filters out (with Talk:). -/
def fnReservedStarts : List String :=
  ["/wiki/Main_Page", "/wiki/Special:", "/wiki/Help:", "/wiki/Category:",
   "/wiki/Portal:", "/wiki/Template:", "/wiki/Wikipedia:", "/wiki/Talk:"]

/-- The is_internal_article_link condition of the link loop. -/
def is_internal_article_link (href : String) : Bool :=
  startswith href "/wiki/" && !(containsChar (titleSegment href) ':')
    && !(fnReservedStarts.any (fun p => startswith href p))

/-- The allowed_link_prefixes tuple of the link loop. -/
def allowed_link_prefixes : List String :=
  ["/wiki/File:", "/wiki/Image:"]

/-- The is_allowed_file_link condition of the link loop. -/
def is_allowed_file_link (href : String) : Bool :=
  allowed_link_prefixes.any (fun p => startswith href p)

/-- Kind assigned to an href by the if/elif chain of the link loop:
internal article, else allowed file link, else page-internal fragment,
else external-or-other. -/
def classifyHref (href : String) : Kind :=
  if is_internal_article_link href then .internalArticle
  else if is_allowed_file_link href then .internalFile
  else if startswith href "#" then .fragmentOnly
  else .externalOrOther

/-- The classify-and-rewrite pass over every anchor of a forest: an
internal article href becomes absolute with the fragment stripped, an
allowed file href becomes absolute unchanged, and any other anchor is
unwrapped (its children are spliced into its place). -/
def rewriteForest : Node → Node
  | .nil => .nil
  | .text s sib => .text s (rewriteForest sib)
  | .elem t a ch sib =>
    match t == "a", getAttr a "href" with
    | true, some href =>
      match classifyHref href with
      | .internalArticle =>
        .elem t (setAttr a "href" (base_url ++ beforeChar '#' href)) (rewriteForest ch)
          (rewriteForest sib)
      | .internalFile =>
        .elem t (setAttr a "href" (base_url ++ href)) (rewriteForest ch) (rewriteForest sib)
      | .fragmentOnly => appendForest (rewriteForest ch) (rewriteForest sib)
      | .externalOrOther => appendForest (rewriteForest ch) (rewriteForest sib)
    | _, _ => .elem t a (rewriteForest ch) (rewriteForest sib)

/-- The rewrite pass run over the descendants of one detached node. -/
def rewriteIn : Node → Node
  | .nil => .nil
  | .text s sib => .text s sib
  | .elem t a ch sib => .elem t a (rewriteForest ch) sib

/-- The class allow-set of the table pass. -/
def tableAllowClasses : List String :=
  ["infobox", "vcard", "metadata"]

/-- The style markers of the table pass. -/
def infoboxStyleMarkers : List String :=
  ["float:right", "float:left", "margin:0.5em 0 0.5em 1em"]

/-- The is_likely_infobox_style condition: one of the style markers occurs
in the lower-cased style attribute. -/
def is_likely_infobox_style (n : Node) : Bool :=
  infoboxStyleMarkers.any
    (fun m => isSubstrOf m (pyLower ((getAttr (attrsOf n) "style").getD "")))

/-- Removal condition of the table pass: no allow-set class, and not the
infobox style, and the substring "infobox" does not occur in the
lower-cased serialization `str(table)`. -/
def shouldRemoveTable (n : Node) : Bool :=
  !((classList (attrsOf n)).any (fun c => tableAllowClasses.contains c))
    && (!(is_likely_infobox_style n) && !(isSubstrOf "infobox" (pyLower (render n))))

/-- The predicate of the table decomposition loop (`find_all('table')`
together with the removal condition). -/
def dataTablePred (n : Node) : Bool :=
  tagOf n == "table" && shouldRemoveTable n

/-- One structural CSS selector of the noise-removal list: optional tag
name, optional required class, optional required id. -/
structure Selector where
  tag : Option String
  cls : Option String
  idAttr : Option String

/-- Matching of one selector against an element. -/
def selMatches (s : Selector) (n : Node) : Bool :=
  (match s.tag with | some t => tagOf n == t | none => true)
    && (match s.cls with | some c => (classList (attrsOf n)).contains c | none => true)
    && (match s.idAttr with | some i => getAttr (attrsOf n) "id" == some i | none => true)

/-- The elements_to_remove_selectors list of fetch_next_wikipedia_page, in
source order: sup.reference, div.reflist, div.catlinks, div.navbox,
div.thumb, div.hatnote, #siteSub, #jump-to-nav, .mw-editsection,
.mw-kartographer-maplink, #toc. -/
def elements_to_remove_selectors : List Selector :=
  [⟨some "sup", some "reference", none⟩,
   ⟨some "div", some "reflist", none⟩,
   ⟨some "div", some "catlinks", none⟩,
   ⟨some "div", some "navbox", none⟩,
   ⟨some "div", some "thumb", none⟩,
   ⟨some "div", some "hatnote", none⟩,
   ⟨none, none, some "siteSub"⟩,
   ⟨none, none, some "jump-to-nav"⟩,
   ⟨none, some "mw-editsection", none⟩,
   ⟨none, some "mw-kartographer-maplink", none⟩,
   ⟨none, none, some "toc"⟩]

/-- Whether a node has a direct child element
(`p_tag.find_all(True, recursive=False)` non-empty). -/
def anyElemSib : Node → Bool
  | .nil => false
  | .text _ sib => anyElemSib sib
  | .elem _ _ _ _ => true

/-- Pruning condition for paragraph tags: tag p, no non-whitespace text in
the subtree, and no direct child element. -/
def emptyPPred (n : Node) : Bool :=
  tagOf n == "p" && get_text n "" == "" && !(anyElemSib (childOf n))

/-- The success-path pipeline of fetch_next_wikipedia_page over the located
parser-output div: selector-based noise removal in source order, then the
table pass, then the link classify-and-rewrite pass, then empty-paragraph
pruning. -/
def processParserOutput (pd : Node) : Node :=
  let s1 := elements_to_remove_selectors.foldl (fun nd sel => decomposeIn (selMatches sel) nd) pd
  let s2 := decomposeIn dataTablePred s1
  let s3 := rewriteIn s2
  decomposeIn emptyPPred s3

/-- Error string of fetch_next_wikipedia_page when the content wrapper is
missing. -/
def errNoContentDiv : String :=
  "Error: Could not find main content div (" ++ quoteChar ++ "mw-content-text"
    ++ quoteChar ++ ")."

/-- Error string of fetch_next_wikipedia_page when the parser-output div is
missing. -/
def errNoParserOutput : String :=
  "Error: Could not find parser output div (" ++ quoteChar ++ "mw-parser-output"
    ++ quoteChar ++ ") within main content."

/-- The fetch_next_wikipedia_page operation (src/server.py lines 89-194),
over an already-performed fetch: locate the content wrapper and the
parser-output div (each absence yields its own error string), run the
pipeline, and serialize the result. -/
def fetch_next_wikipedia_page (page_title : String) (res : FetchResult) : String :=
  match res with
  | .success doc =>
    match findFirst isContentDiv doc with
    | none => errNoContentDiv
    | some c =>
      match findFirst isParserOutputDiv (childOf c) with
      | none => errNoParserOutput
      | some pd => render (processParserOutput pd)
  | .httpStatusError st reason => "<p>" ++ errMsgHTTP page_title st reason ++ "</p>"
  | .requestError m => "<p>" ++ errMsgReq page_title m ++ "</p>"

/-- Per-href processing of extract_all_wikipedia_links: for an href under
/wiki/, take the path after the first /wiki/ and before any fragment or
query; reject a colon in it or the exact reserved main-page title;
otherwise produce the percent-decoded, underscore-to-space title, or the
re-assembled absolute URL. -/
def extractHref (titles_only : Bool) (href : String) : Option String :=
  if startswith href "/wiki/" then
    let path_segment := afterFirst "/wiki/" href
    let main_path_part := beforeChar '?' (beforeChar '#' path_segment)
    if !(containsChar main_path_part ':') && main_path_part ≠ "Main_Page" then
      some (if titles_only then replaceChar '_' ' ' (unquote main_path_part)
            else base_url ++ "/wiki/" ++ main_path_part)
    else none
  else none

/-- The extract_all_wikipedia_links operation (src/server.py lines
198-251), over an already-performed fetch: every anchor of the whole
document, in document order, contributes through extractHref; the list
keeps duplicates. -/
def extract_all_wikipedia_links (page_title : String) (titles_only : Bool)
    (res : FetchResult) : List String :=
  match res with
  | .success doc => (anchorHrefs doc).filterMap (extractHref titles_only)
  | .httpStatusError st reason => [errMsgHTTP page_title st reason]
  | .requestError m => [errMsgReq page_title m]

/-- The three reserved hrefs named by the reserved-namespace filtering
property. -/
def reservedSamples : List String :=
  ["/wiki/Category:Foo", "/wiki/Main_Page", "/wiki/Talk:Foo"]

/-- Every element tag of a forest is free of the dot character (true of any
tree parsed from HTML markup, whose tag names never contain a CSS class
separator). -/
def elementTagsNoDot : Node → Bool
  | .nil => true
  | .text _ sib => elementTagsNoDot sib
  | .elem t _ ch sib => !(containsChar t '.') && elementTagsNoDot ch && elementTagsNoDot sib

/-- Fixture: a document with two anchors to the same target. -/
def dupDoc : Node :=
  .elem "a" [("href", "/wiki/A")] .nil (.elem "a" [("href", "/wiki/A")] .nil .nil)

/-- Fixture: the scenario anchor with a fragment in its href. -/
def fooBarAnchor : Node :=
  .elem "a" [("href", "/wiki/Foo_Bar#Section")] (.text "x" .nil) .nil

/-- Fixture: a content wrapper whose parser-output div is absent. -/
def noParserDoc : Node :=
  .elem "div" [("id", "mw-content-text")] (.text "hi" .nil) .nil

/-- Fixture: a well-formed document with a Category anchor in its
parser-output div. -/
def catFooDoc : Node :=
  .elem "div" [("id", "mw-content-text")]
    (.elem "div" [("class", "mw-parser-output")]
      (.elem "a" [("href", "/wiki/Category:Foo")] (.text "c" .nil) .nil) .nil) .nil

/-- Fixture: a no-allow-class table whose style passes the float heuristic
while its serialization does not contain the infobox marker. -/
def floatTable : Node :=
  .elem "table" [("style", "float:right")]
    (.elem "tr" [] (.elem "td" [] (.text "x" .nil) .nil) .nil) .nil

/-- Fixture: a no-allow-class, no-style table whose serialization contains
the infobox marker only through a descendant class. -/
def markerTable : Node :=
  .elem "table" []
    (.elem "td" [("class", "infobox-caption")] (.text "x" .nil) .nil) .nil

/-- Fixture: a navbox div next to a table (the shapes the removal list of
fetch_wikipedia_page is aimed at). -/
def navboxDoc : Node :=
  .elem "div" [("class", "navbox")] (.text "nav" .nil)
    (.elem "table" [] (.text "tab" .nil) .nil)

/-- Fixture: a parser-output div with two paragraphs of text. -/
def twoParaInner : Node :=
  .elem "div" [("class", "mw-parser-output")]
    (.elem "p" [] (.text "Hello" .nil)
      (.elem "p" [] (.text "World" .nil) .nil)) .nil

/-- Fixture: a well-formed document with two paragraphs of text. -/
def twoParaDoc : Node :=
  .elem "div" [("id", "mw-content-text")] twoParaInner .nil

/-- Fixture: a well-formed document carrying the scenario anchor inside its
parser-output div. -/
def fooBarDoc : Node :=
  .elem "div" [("id", "mw-content-text")]
    (.elem "div" [("class", "mw-parser-output")] fooBarAnchor .nil) .nil

lemma strAppendLeftCancel {a b c : String} (h : a ++ b = a ++ c) : b = c := by
  have hd := congrArg String.data h
  simp only [String.data_append] at hd
  exact String.ext (List.append_cancel_left hd)

lemma startswith_head {s p : String} (c : Char) (hp : startswith s p = true)
    (hc : p.data.head? = some c) : s.data.head? = some c := by
  rw [startswith] at hp
  cases hps : p.data with
  | nil => rw [hps] at hc; simp at hc
  | cons x xs =>
    rw [hps] at hc
    simp at hc
    cases hss : s.data with
    | nil => rw [hps, hss] at hp; simp [List.isPrefixOf] at hp
    | cons y ys =>
      rw [hps, hss] at hp
      simp [List.isPrefixOf] at hp
      simp [hc ▸ hp.1]

lemma startswith_false_of_head {s q : String} (c d : Char)
    (hs : s.data.head? = some c) (hq : q.data.head? = some d) (hcd : c ≠ d) :
    startswith s q = false := by
  rw [startswith]
  cases hqs : q.data with
  | nil => rw [hqs] at hq; simp at hq
  | cons x xs =>
    rw [hqs] at hq
    simp at hq
    cases hss : s.data with
    | nil => rw [hss] at hs; simp at hs
    | cons y ys =>
      rw [hss] at hs
      simp at hs
      subst hq hs
      simp [List.isPrefixOf]
      intro he
      exact absurd he.symm hcd

/-- Unfolding of fetch_wikipedia_page when the content wrapper is absent. -/
lemma fwp_eq_noContent (page_title : String) (doc : Node)
    (hc : findFirst isContentDiv doc = none) :
    fetch_wikipedia_page page_title (.success doc)
      = { error := none, main_text := "Could not find mw-content-text div.",
          wikipedia_links := [] } := by
  simp only [fetch_wikipedia_page, hc]

/-- Unfolding of fetch_wikipedia_page when the parser-output div is
absent. -/
lemma fwp_eq_noParser (page_title : String) (doc c : Node)
    (hc : findFirst isContentDiv doc = some c)
    (hpd : findFirst isParserOutputDiv (childOf c) = none) :
    fetch_wikipedia_page page_title (.success doc)
      = { error := none, main_text := "Could not find mw-parser-output div.",
          wikipedia_links := [] } := by
  simp only [fetch_wikipedia_page, hc, hpd]

/-- Unfolding of fetch_wikipedia_page when both divs are found. -/
lemma fwp_eq_found (page_title : String) (doc c pd : Node)
    (hc : findFirst isContentDiv doc = some c)
    (hpd : findFirst isParserOutputDiv (childOf c) = some pd) :
    fetch_wikipedia_page page_title (.success doc)
      = { error := none,
          main_text := get_text (decomposeIn fwpRemovalPred pd) bslashN,
          wikipedia_links := fwpLinks (decomposeIn fwpRemovalPred pd) } := by
  simp only [fetch_wikipedia_page, hc, hpd]

/-- Unfolding of fetch_next_wikipedia_page when the parser-output div is
absent. -/
lemma fnext_eq_noParser (page_title : String) (doc c : Node)
    (hc : findFirst isContentDiv doc = some c)
    (hpd : findFirst isParserOutputDiv (childOf c) = none) :
    fetch_next_wikipedia_page page_title (.success doc) = errNoParserOutput := by
  simp only [fetch_next_wikipedia_page, hc, hpd]

/-- Every member of the wikipedia_links list of a successful
fetch_wikipedia_page result comes from a kept href prefixed with the base
URL; an href the keep-filter rejects can therefore never appear. -/
lemma not_mem_fwp_links (page_title : String) (doc : Node) (href : String)
    (h : fwpKeepHref href = false) :
    (base_url ++ href) ∉ (fetch_wikipedia_page page_title (.success doc)).wikipedia_links := by
  rcases hc : findFirst isContentDiv doc with _ | c
  · rw [fwp_eq_noContent page_title doc hc]
    simp
  rcases hpd : findFirst isParserOutputDiv (childOf c) with _ | pd
  · rw [fwp_eq_noParser page_title doc c hc hpd]
    simp
  rw [fwp_eq_found page_title doc c pd hc hpd]
  intro hmem
  simp only [fwpLinks, List.mem_dedup, List.mem_map] at hmem
  obtain ⟨h0, hfilt, heq⟩ := hmem
  rw [List.mem_filter] at hfilt
  rw [strAppendLeftCancel heq] at hfilt
  rw [h] at hfilt
  exact absurd hfilt.2 (by simp)

/-- C1 counterexample: for a fetched document with two anchors to
/wiki/A, extract_all_wikipedia_links returns the title twice, so its
output is not duplicate-free. -/
theorem extract_all_links_duplicates_cex :
    extract_all_wikipedia_links "T" true (.success dupDoc) = ["A", "A"]
      ∧ ¬ (extract_all_wikipedia_links "T" true (.success dupDoc)).Nodup := by
  constructor
  · decide
  · decide

/-- C1 (amended): the wikipedia_links list returned by
fetch_wikipedia_page contains no duplicate entries, for every fetch
outcome; extract_all_wikipedia_links, by contrast, preserves duplicates. -/
theorem fwp_links_nodup (page_title : String) (res : FetchResult) :
    (fetch_wikipedia_page page_title res).wikipedia_links.Nodup := by
  cases res with
  | success doc =>
    rcases hc : findFirst isContentDiv doc with _ | c
    · rw [fwp_eq_noContent page_title doc hc]
      simp
    rcases hpd : findFirst isParserOutputDiv (childOf c) with _ | pd
    · rw [fwp_eq_noParser page_title doc c hc hpd]
      simp
    rw [fwp_eq_found page_title doc c pd hc hpd]
    simpa [fwpLinks] using List.nodup_dedup _
  | httpStatusError st reason => simp [fetch_wikipedia_page]
  | requestError m => simp [fetch_wikipedia_page]

/-- C7: the anchor href /wiki/Foo_Bar#Section yields the title "Foo Bar"
from the link-list operation in titles mode (fragment stripped, underscores
replaced by spaces), and the sanitized-HTML rewrite step turns its href
into the absolute fragment-free URL; the full sanitized-HTML operation
serializes it accordingly. -/
theorem fragment_anchor_scenario :
    extract_all_wikipedia_links "T" true (.success fooBarDoc) = ["Foo Bar"]
      ∧ rewriteForest fooBarAnchor
        = .elem "a" [("href", "https://en.wikipedia.org/wiki/Foo_Bar")] (.text "x" .nil) .nil
      ∧ fetch_next_wikipedia_page "T" (.success fooBarDoc)
        = "<div class=\"mw-parser-output\"><a href=\"https://en.wikipedia.org/wiki/Foo_Bar\">x</a></div>" := by
  refine ⟨by decide, by decide, by decide⟩

/-- C8: a table whose class list contains infobox is never removed by the
table pass of the sanitized-HTML operation, whatever its style attribute,
contents and siblings. -/
theorem infobox_table_always_kept (a : List (String × String)) (ch sib : Node)
    (h : "infobox" ∈ classList a) :
    shouldRemoveTable (.elem "table" a ch .nil) = false
      ∧ removeMatching dataTablePred (.elem "table" a ch sib)
        = .elem "table" a (removeMatching dataTablePred ch) (removeMatching dataTablePred sib) := by
  have hany : (classList a).any (fun c => tableAllowClasses.contains c) = true := by
    rw [List.any_eq_true]
    exact ⟨"infobox", h, by decide⟩
  have hrem : shouldRemoveTable (.elem "table" a ch .nil) = false := by
    simp only [shouldRemoveTable, attrsOf]
    rw [hany]
    simp
  refine ⟨hrem, ?_⟩
  simp [removeMatching, dataTablePred, hrem]

/-- C2 counterexample: applying the classify-and-rewrite step to its own
output changes the anchor: a first application turns href /wiki/Foo into
the normalized absolute form, but a second application assigns that
absolute href a different Kind (external-or-other, not internal-article)
and unwraps the anchor instead of leaving it unchanged. -/
theorem rewrite_second_pass_cex :
    rewriteForest (.elem "a" [("href", "/wiki/Foo")] (.text "Foo" .nil) .nil)
        = .elem "a" [("href", "https://en.wikipedia.org/wiki/Foo")] (.text "Foo" .nil) .nil
      ∧ rewriteForest
          (.elem "a" [("href", "https://en.wikipedia.org/wiki/Foo")] (.text "Foo" .nil) .nil)
        = .text "Foo" .nil
      ∧ classifyHref "https://en.wikipedia.org/wiki/Foo" = Kind.externalOrOther
      ∧ classifyHref "/wiki/Foo" = Kind.internalArticle := by
  refine ⟨by decide, by decide, by decide, by decide⟩

/-- C2 (amended): the classify-and-rewrite step is not idempotent on the
hrefs it normalizes: any href that starts with the https scheme -- in
particular every absolute form produced by a first application -- is
classified external-or-other by a second application, which unwraps the
anchor (children spliced in place, text preserved, link removed). -/
theorem rewrite_second_pass_unwraps (href : String)
    (h : startswith href "https://" = true) :
    classifyHref href = Kind.externalOrOther
      ∧ ∀ (a : List (String × String)) (ch sib : Node), getAttr a "href" = some href →
          rewriteForest (.elem "a" a ch sib)
            = appendForest (rewriteForest ch) (rewriteForest sib) := by
  have hh : href.data.head? = some 'h' := startswith_head 'h' h rfl
  have h1 : startswith href "/wiki/" = false :=
    startswith_false_of_head 'h' '/' hh rfl (by decide)
  have h2 : startswith href "#" = false :=
    startswith_false_of_head 'h' '#' hh rfl (by decide)
  have h3 : startswith href "/wiki/File:" = false :=
    startswith_false_of_head 'h' '/' hh rfl (by decide)
  have h4 : startswith href "/wiki/Image:" = false :=
    startswith_false_of_head 'h' '/' hh rfl (by decide)
  have hcl : classifyHref href = Kind.externalOrOther := by
    simp [classifyHref, is_internal_article_link, is_allowed_file_link,
      allowed_link_prefixes, h1, h2, h3, h4]
  refine ⟨hcl, ?_⟩
  intro a ch sib hga
  simp [rewriteForest, hga, hcl]

/-- C2 amended witness: the non-idempotence theorem applied to the
normalized absolute href of the counterexample anchor. -/
theorem rewrite_second_pass_unwraps_witness :
    classifyHref "https://en.wikipedia.org/wiki/Foo" = Kind.externalOrOther
      ∧ rewriteForest
          (.elem "a" [("href", "https://en.wikipedia.org/wiki/Foo")] (.text "Foo" .nil) .nil)
        = appendForest (rewriteForest (.text "Foo" .nil)) (rewriteForest .nil) :=
  ⟨(rewrite_second_pass_unwraps "https://en.wikipedia.org/wiki/Foo" (by decide)).1,
   (rewrite_second_pass_unwraps "https://en.wikipedia.org/wiki/Foo" (by decide)).2
     [("href", "https://en.wikipedia.org/wiki/Foo")] (.text "Foo" .nil) .nil (by decide)⟩

/-- C3 counterexample: a table with no allow-set class whose inline style
fails the float/margin heuristic -- so the two conditions of the claim
certainly do not BOTH hold -- is nevertheless kept by the table pass,
because its serialization contains the infobox marker and the code
combines the two signals with OR (remove only when both fail), not AND;
for good measure, a style-only table (float:right, no marker) is kept as
well. -/
theorem one_signal_table_kept_cex :
    (classList (attrsOf markerTable)).any (fun c => tableAllowClasses.contains c) = false
      ∧ is_likely_infobox_style markerTable = false
      ∧ isSubstrOf "infobox" (pyLower (render markerTable)) = true
      ∧ shouldRemoveTable markerTable = false
      ∧ removeMatching dataTablePred markerTable = markerTable
      ∧ is_likely_infobox_style floatTable = true
      ∧ isSubstrOf "infobox" (pyLower (render floatTable)) = false
      ∧ shouldRemoveTable floatTable = false := by
  refine ⟨by decide, by decide, by decide, by decide, by decide, by decide, by decide, by decide⟩

/-- C3 (amended): a table with no allow-set class is kept precisely when
its inline style passes the float/margin heuristic OR its lower-cased
serialization contains the infobox marker; it is removed only when both
fail. -/
theorem table_kept_iff_style_or_marker (a : List (String × String)) (ch : Node)
    (hallow : (classList a).any (fun c => tableAllowClasses.contains c) = false) :
    (shouldRemoveTable (.elem "table" a ch .nil) = false
        ↔ (is_likely_infobox_style (.elem "table" a ch .nil) = true
            ∨ isSubstrOf "infobox" (pyLower (render (.elem "table" a ch .nil))) = true))
      ∧ removeMatching dataTablePred (.elem "table" a ch .nil)
          = (if shouldRemoveTable (.elem "table" a ch .nil) then .nil
             else .elem "table" a (removeMatching dataTablePred ch) .nil) := by
  have hsr : shouldRemoveTable (.elem "table" a ch .nil)
      = (!(is_likely_infobox_style (.elem "table" a ch .nil))
          && !(isSubstrOf "infobox" (pyLower (render (.elem "table" a ch .nil))))) := by
    simp only [shouldRemoveTable, attrsOf]
    rw [hallow]
    simp
  constructor
  · rw [hsr]
    cases is_likely_infobox_style (.elem "table" a ch .nil) <;>
      cases isSubstrOf "infobox" (pyLower (render (.elem "table" a ch .nil))) <;> simp
  · cases hx : shouldRemoveTable (.elem "table" a ch .nil) <;>
      simp [removeMatching, dataTablePred, tagOf, hx]

/-- C3 amended witness: the keep-iff theorem applied to the concrete
float-styled data table of the counterexample. -/
theorem table_kept_iff_style_or_marker_witness :
    (shouldRemoveTable
          (.elem "table" [("style", "float:right")]
            (.elem "tr" [] (.elem "td" [] (.text "x" .nil) .nil) .nil) .nil) = false
        ↔ (is_likely_infobox_style
              (.elem "table" [("style", "float:right")]
                (.elem "tr" [] (.elem "td" [] (.text "x" .nil) .nil) .nil) .nil) = true
            ∨ isSubstrOf "infobox"
                (pyLower (render (.elem "table" [("style", "float:right")]
                  (.elem "tr" [] (.elem "td" [] (.text "x" .nil) .nil) .nil) .nil))) = true))
      ∧ removeMatching dataTablePred
            (.elem "table" [("style", "float:right")]
              (.elem "tr" [] (.elem "td" [] (.text "x" .nil) .nil) .nil) .nil)
          = (if shouldRemoveTable
                (.elem "table" [("style", "float:right")]
                  (.elem "tr" [] (.elem "td" [] (.text "x" .nil) .nil) .nil) .nil) then .nil
             else .elem "table" [("style", "float:right")]
               (removeMatching dataTablePred
                 (.elem "tr" [] (.elem "td" [] (.text "x" .nil) .nil) .nil)) .nil) :=
  table_kept_iff_style_or_marker [("style", "float:right")]
    (.elem "tr" [] (.elem "td" [] (.text "x" .nil) .nil) .nil) (by decide)

/-- C4 counterexample: on an HTTP 404 failure, the sanitized-HTML
operation does not return the empty string the claim requires; it returns
an HTML error paragraph. -/
theorem http_error_html_not_empty_cex :
    fetch_next_wikipedia_page "Foo" (.httpStatusError 404 "Not Found") ≠ ""
      ∧ fetch_next_wikipedia_page "Foo" (.httpStatusError 404 "Not Found")
        = "<p>" ++ errMsgHTTP "Foo" 404 "Not Found" ++ "</p>" := by
  refine ⟨by decide, by decide⟩

/-- C4 (amended): an HTTP-status failure yields, in every operation, an
error result containing the status code and the requested title: the text
operation returns the error message with empty main_text and links, the
sanitized-HTML operation returns a non-empty HTML error paragraph, and the
link-list operation returns a single-element list holding the error
message. -/
theorem http_status_error_results (page_title reason : String) (st : Nat) (b : Bool) :
    fetch_wikipedia_page page_title (.httpStatusError st reason)
        = { error := some (errMsgHTTP page_title st reason), main_text := "",
            wikipedia_links := [] }
      ∧ fetch_next_wikipedia_page page_title (.httpStatusError st reason)
          = "<p>" ++ errMsgHTTP page_title st reason ++ "</p>"
      ∧ fetch_next_wikipedia_page page_title (.httpStatusError st reason) ≠ ""
      ∧ extract_all_wikipedia_links page_title b (.httpStatusError st reason)
          = [errMsgHTTP page_title st reason]
      ∧ (∃ x y, errMsgHTTP page_title st reason = x ++ page_title ++ y)
      ∧ (∃ x y, errMsgHTTP page_title st reason = x ++ toString st ++ y) := by
  have h2 : fetch_next_wikipedia_page page_title (.httpStatusError st reason)
      = "<p>" ++ errMsgHTTP page_title st reason ++ "</p>" := rfl
  refine ⟨rfl, h2, ?_, rfl, ?_, ?_⟩
  · rw [h2]
    intro hcontra
    have hd := congrArg String.data hcontra
    rw [String.data_append, String.data_append] at hd
    rw [show ("<p>").data = ['<', 'p', '>'] from rfl] at hd
    rw [show ("").data = ([] : List Char) from rfl] at hd
    simp at hd
  · exact ⟨"Error fetching page " ++ quoteChar,
      quoteChar ++ ": HTTP " ++ toString st ++ " - " ++ reason, by
        simp [errMsgHTTP, String.append_assoc]⟩
  · exact ⟨"Error fetching page " ++ quoteChar ++ page_title ++ quoteChar ++ ": HTTP ",
      " - " ++ reason, by simp [errMsgHTTP, String.append_assoc]⟩

/-- An anchor whose href is classified external-or-other is unwrapped by
the rewrite pass: its children are spliced into its place. -/
lemma rewrite_unwrap_of_external {href : String}
    (hcl : classifyHref href = Kind.externalOrOther)
    (a : List (String × String)) (ch sib : Node) (hga : getAttr a "href" = some href) :
    rewriteForest (.elem "a" a ch sib)
      = appendForest (rewriteForest ch) (rewriteForest sib) := by
  simp [rewriteForest, hga, hcl]

/-- C5: the reserved hrefs /wiki/Category:Foo, /wiki/Main_Page and
/wiki/Talk:Foo are never treated as internal-article links: the
fetch_wikipedia_page keep-filter rejects them (so they never reach its
wikipedia_links, for any document), the sanitized-HTML classifier never
assigns internal-article (the rewrite pass unwraps such anchors instead of
keeping an absolute article link), and the link-list extraction maps them
to none in both modes. -/
theorem reserved_namespace_filtering :
    ∀ href ∈ reservedSamples,
      fwpKeepHref href = false
        ∧ is_internal_article_link href = false
        ∧ classifyHref href ≠ Kind.internalArticle
        ∧ (∀ b, extractHref b href = none)
        ∧ (∀ (page_title : String) (doc : Node),
            (base_url ++ href) ∉ (fetch_wikipedia_page page_title (.success doc)).wikipedia_links)
        ∧ (∀ (a : List (String × String)) (ch sib : Node), getAttr a "href" = some href →
            rewriteForest (.elem "a" a ch sib)
              = appendForest (rewriteForest ch) (rewriteForest sib)) := by
  intro href hmem
  have hcases : href = "/wiki/Category:Foo" ∨ href = "/wiki/Main_Page"
      ∨ href = "/wiki/Talk:Foo" := by
    simpa [reservedSamples] using hmem
  rcases hcases with he | he | he <;> subst he <;>
    exact ⟨by decide, by decide, by decide, by decide,
      fun page_title doc => not_mem_fwp_links page_title doc _ (by decide),
      fun a ch sib hga => rewrite_unwrap_of_external (by decide) a ch sib hga⟩

/-- C5 witness: the reserved-namespace theorem applied to the Category
href, a concrete document carrying that anchor, and the concrete anchor
itself. -/
theorem reserved_namespace_filtering_witness :
    (base_url ++ "/wiki/Category:Foo")
        ∉ (fetch_wikipedia_page "T" (.success catFooDoc)).wikipedia_links
      ∧ rewriteForest (.elem "a" [("href", "/wiki/Category:Foo")] (.text "c" .nil) .nil)
          = appendForest (rewriteForest (.text "c" .nil)) (rewriteForest .nil) :=
  ⟨(reserved_namespace_filtering "/wiki/Category:Foo" (by decide)).2.2.2.2.1 "T" catFooDoc,
   (reserved_namespace_filtering "/wiki/Category:Foo" (by decide)).2.2.2.2.2
     [("href", "/wiki/Category:Foo")] (.text "c" .nil) .nil (by decide)⟩

/-- C6 counterexample: for a document whose content wrapper is present but
whose parser-output div is absent, the text operation does not return an
error variant: its result carries no error entry, and the parser-output
message sits in main_text of a success-shaped result. -/
theorem parser_output_missing_cex :
    (fetch_wikipedia_page "T" (.success noParserDoc)).error = none
      ∧ (fetch_wikipedia_page "T" (.success noParserDoc)).main_text
        = "Could not find mw-parser-output div." := by
  refine ⟨by decide, by decide⟩

/-- C6 (amended): when the content wrapper is present but the parser-output
div is absent, the sanitized-HTML operation returns its dedicated error
string naming mw-parser-output, distinct from the content-wrapper error,
while the text operation returns a success-shaped result (no error entry)
whose main_text is the fallback message naming mw-parser-output, distinct
from the wrapper-missing fallback, with empty links. -/
theorem parser_output_missing_behaviour (page_title : String) (doc c : Node)
    (hc : findFirst isContentDiv doc = some c)
    (hpd : findFirst isParserOutputDiv (childOf c) = none) :
    (fetch_wikipedia_page page_title (.success doc)).error = none
      ∧ (fetch_wikipedia_page page_title (.success doc)).main_text
          = "Could not find mw-parser-output div."
      ∧ (fetch_wikipedia_page page_title (.success doc)).wikipedia_links = []
      ∧ fetch_next_wikipedia_page page_title (.success doc) = errNoParserOutput
      ∧ "Could not find mw-parser-output div." ≠ "Could not find mw-content-text div."
      ∧ errNoParserOutput ≠ errNoContentDiv := by
  rw [fwp_eq_noParser page_title doc c hc hpd]
  exact ⟨rfl, rfl, rfl, fnext_eq_noParser page_title doc c hc hpd, by decide, by decide⟩

/-- C6 amended witness: the parser-output-missing theorem applied to a
concrete content wrapper without a parser-output div. -/
theorem parser_output_missing_behaviour_witness :
    (fetch_wikipedia_page "T" (.success noParserDoc)).wikipedia_links = []
      ∧ fetch_next_wikipedia_page "T" (.success noParserDoc) = errNoParserOutput :=
  ⟨(parser_output_missing_behaviour "T" noParserDoc
      (.elem "div" [("id", "mw-content-text")] (.text "hi" .nil) .nil)
      (by decide) (by decide)).2.2.1,
   (parser_output_missing_behaviour "T" noParserDoc
      (.elem "div" [("id", "mw-content-text")] (.text "hi" .nil) .nil)
      (by decide) (by decide)).2.2.2.1⟩

/-- A tag name free of the dot character differs from every dotted entry of
the removal list, so the find_all name-matching reduces to the table
check. -/
lemma fwpRemovalPred_noDot (t : String) (a : List (String × String)) (ch : Node)
    (h : containsChar t '.' = false) :
    fwpRemovalPred (.elem t a ch .nil) = (t == "table") := by
  have h1 : t ≠ "div.navbox" := fun he => by subst he; exact absurd h (by decide)
  have h2 : t ≠ "div.thumb" := fun he => by subst he; exact absurd h (by decide)
  have h3 : t ≠ "div.hatnote" := fun he => by subst he; exact absurd h (by decide)
  have h4 : t ≠ "div.reflist" := fun he => by subst he; exact absurd h (by decide)
  have h5 : t ≠ "div.catlinks" := fun he => by subst he; exact absurd h (by decide)
  simp only [fwpRemovalPred, tagOf, removalNames, List.contains, List.any, h1, h2, h3, h4, h5]
  cases hb : t == "table" <;> simp_all

/-- C9: in the noise-removal pass of fetch_wikipedia_page, the entries of
the removal list are matched as tag names, so on any document whose
element tags contain no dot (as parsed HTML tags never do) the pass removes
exactly the table elements -- the div.navbox, div.thumb, div.hatnote,
div.reflist and div.catlinks entries match nothing, and div elements such
as navigation boxes, thumbnails, hatnotes, reference lists and
category-link blocks always survive the pass. -/
theorem removal_list_matches_only_tables (f : Node) (h : elementTagsNoDot f = true) :
    removeMatching fwpRemovalPred f = removeMatching (fun n => tagOf n == "table") f
      ∧ ∀ (a : List (String × String)) (ch sib : Node),
          removeMatching fwpRemovalPred (.elem "div" a ch sib)
            = .elem "div" a (removeMatching fwpRemovalPred ch)
                (removeMatching fwpRemovalPred sib) := by
  constructor
  · revert h
    induction f with
    | nil => intro h; rfl
    | text s sib ih =>
      intro h
      simp only [elementTagsNoDot] at h
      simp only [removeMatching, ih h]
    | elem t a ch sib ih1 ih2 =>
      intro h
      simp only [elementTagsNoDot, Bool.and_eq_true] at h
      have hb : containsChar t '.' = false := by
        rcases h with ⟨⟨hnd, _⟩, _⟩
        cases hcc : containsChar t '.'
        · rfl
        · rw [hcc] at hnd; simp at hnd
      have hpt := fwpRemovalPred_noDot t a ch hb
      simp only [removeMatching, tagOf, hpt, ih1 h.1.2, ih2 h.2]
  · intro a ch sib
    simp [removeMatching, fwpRemovalPred, tagOf, removalNames]

/-- C9 witness: the removal-pass theorem applied to a concrete document
holding a navbox div followed by a table. -/
theorem removal_list_matches_only_tables_witness :
    removeMatching fwpRemovalPred navboxDoc
        = removeMatching (fun n => tagOf n == "table") navboxDoc
      ∧ removeMatching fwpRemovalPred
          (.elem "div" [("class", "navbox")] (.text "nav" .nil) .nil)
        = .elem "div" [("class", "navbox")]
            (removeMatching fwpRemovalPred (.text "nav" .nil))
            (removeMatching fwpRemovalPred .nil) :=
  ⟨(removal_list_matches_only_tables navboxDoc (by decide)).1,
   (removal_list_matches_only_tables navboxDoc (by decide)).2
     [("class", "navbox")] (.text "nav" .nil) .nil⟩

/-- Containment of a character distributes over string concatenation. -/
lemma containsChar_append (s t : String) (c : Char) :
    containsChar (s ++ t) c = (containsChar s c || containsChar t c) := by
  simp [containsChar, String.data_append, List.contains_eq_any_beq, List.any_append]

/-- Joining strings that avoid a character with a separator that avoids it
produces a string that avoids it. -/
lemma joinSep_no_char (c : Char) (sep : String) (hsep : containsChar sep c = false) :
    ∀ l : List String, (∀ s ∈ l, containsChar s c = false) →
      containsChar (joinSep sep l) c = false := by
  intro l
  induction l with
  | nil => intro; simp [joinSep, containsChar]
  | cons s rest ih =>
    intro hall
    cases rest with
    | nil => simpa [joinSep] using hall s (by simp)
    | cons s2 rest2 =>
      have h1 := hall s (by simp)
      have ih2 := ih (fun x hx => hall x (by simp [hx]))
      rw [show joinSep sep (s :: s2 :: rest2) = s ++ sep ++ joinSep sep (s2 :: rest2) from rfl]
      simp only [containsChar_append]
      rw [h1, hsep, ih2]
      simp

/-- C10: the main_text of a successfully located content subtree is the
stripped text segments joined by the separator the source passes to
get_text, which is the two-character literal backslash-n, not a newline;
in particular, when no segment contains a newline character, the returned
main_text contains no newline character at all. -/
theorem main_text_separator_literal (page_title : String) (doc c pd : Node)
    (hc : findFirst isContentDiv doc = some c)
    (hpd : findFirst isParserOutputDiv (childOf c) = some pd) :
    (fetch_wikipedia_page page_title (.success doc)).main_text
        = joinSep bslashN (strippedSegments (decomposeIn fwpRemovalPred pd))
      ∧ bslashN = String.mk ['\\', 'n']
      ∧ bslashN ≠ "\n"
      ∧ ((∀ s ∈ strippedSegments (decomposeIn fwpRemovalPred pd),
            containsChar s '\n' = false) →
          containsChar (fetch_wikipedia_page page_title (.success doc)).main_text '\n'
            = false) := by
  rw [fwp_eq_found page_title doc c pd hc hpd]
  refine ⟨rfl, by decide, by decide, ?_⟩
  intro hall
  exact joinSep_no_char '\n' bslashN (by decide) _ hall

/-- C10 witness: the separator theorem applied to a concrete two-paragraph
document, with every hypothesis evaluated. -/
theorem main_text_separator_literal_witness :
    (fetch_wikipedia_page "T" (.success twoParaDoc)).main_text
        = joinSep bslashN (strippedSegments (decomposeIn fwpRemovalPred twoParaInner))
      ∧ containsChar (fetch_wikipedia_page "T" (.success twoParaDoc)).main_text '\n'
        = false :=
  ⟨(main_text_separator_literal "T" twoParaDoc twoParaDoc twoParaInner
      (by decide) (by decide)).1,
   (main_text_separator_literal "T" twoParaDoc twoParaDoc twoParaInner
      (by decide) (by decide)).2.2.2 (by decide)⟩

/-- C8 witness: the infobox-kept theorem applied to a concrete infobox
table with a style the heuristics would otherwise reject. -/
theorem infobox_table_always_kept_witness :
    shouldRemoveTable (.elem "table" [("class", "infobox")] (.text "t" .nil) .nil) = false
      ∧ removeMatching dataTablePred (.elem "table" [("class", "infobox")] (.text "t" .nil) .nil)
        = .elem "table" [("class", "infobox")]
            (removeMatching dataTablePred (.text "t" .nil)) (removeMatching dataTablePred .nil) :=
  infobox_table_always_kept [("class", "infobox")] (.text "t" .nil) .nil (by decide)
